import Mathlib

/-!
Shallow embedding of `src/smart_contracts/todo_app/contract.py` (class
`TodoApp`), a minimal CRUD record store on the Algorand AVM.

The contract state is a 64-bit global counter (`todo_counter`) and two
box maps keyed by `arc4.UInt64`: `todos : id -> text` and
`completed : id -> bool`.  We model the maps as functions
`Nat -> Option _` (a key is present iff the value is `some`), and the
`UInt64` counter as a `Nat` together with the AVM overflow rule: the
addition `current_id + UInt64(1)` in `create_todo` aborts the whole call
when the result does not fit in 64 bits, so `create_todo` returns
`Option` (`none` = transaction failure, no state change).
All other operations involve no arithmetic and cannot fail.
-/

/-- `2 ^ 64`, the number of values of the AVM `UInt64` type. -/
def U64MOD : Nat := 2 ^ 64

/-- Global state of the `TodoApp` contract: the `todo_counter` global and
the two box maps `todos` and `completed`. -/
@[ext]
structure TodoState where
  todo_counter : Nat
  todos : Nat → Option String
  completed : Nat → Option Bool

/-- State of a freshly deployed contract (`__init__`): counter `0`, both
box maps empty. -/
def TodoState.init : TodoState :=
  { todo_counter := 0, todos := fun _ => none, completed := fun _ => none }

/-- `create_todo(task)`: increments the counter to obtain the new id,
stores `(id, task)` in `todos` and `(id, False)` in `completed`, and
returns the id.  The AVM aborts on `UInt64` overflow of
`current_id + 1`, modelled by returning `none`. -/
def create_todo (s : TodoState) (task : String) : Option (Nat × TodoState) :=
  let new_id := s.todo_counter + 1
  if new_id < U64MOD then
    some (new_id,
      { todo_counter := new_id,
        todos := fun k => if k = new_id then some task else s.todos k,
        completed := fun k => if k = new_id then some false else s.completed k })
  else
    none

/-- `complete_todo(todo_id)`: returns "Todo not found" if the id is not a
key of `todos`; otherwise sets `completed[todo_id] = True` and returns
the success message. -/
def complete_todo (s : TodoState) (todo_id : Nat) : String × TodoState :=
  if (s.todos todo_id).isNone then
    ("Todo not found", s)
  else
    ("Todo marked as completed!",
      { s with completed := fun k => if k = todo_id then some true else s.completed k })

/-- `get_todo(todo_id)`: the stored text, or "Todo not found" when the id
is not a key of `todos`.  Read-only. -/
def get_todo (s : TodoState) (todo_id : Nat) : String :=
  match s.todos todo_id with
  | none => "Todo not found"
  | some t => t

/-- `is_completed(todo_id)`: the stored flag, or `False` when the id is
not a key of `completed`.  Read-only. -/
def is_completed (s : TodoState) (todo_id : Nat) : Bool :=
  match s.completed todo_id with
  | none => false
  | some b => b

/-- `get_total_todos()`: the current counter value.  Read-only. -/
def get_total_todos (s : TodoState) : Nat :=
  s.todo_counter

/-- `delete_todo(todo_id)`: returns "Todo not found" if the id is not a
key of `todos`; otherwise deletes the id from both box maps and returns
the success message.  The counter is not touched. -/
def delete_todo (s : TodoState) (todo_id : Nat) : String × TodoState :=
  if (s.todos todo_id).isNone then
    ("Todo not found", s)
  else
    ("Todo deleted successfully!",
      { s with
        todos := fun k => if k = todo_id then none else s.todos k,
        completed := fun k => if k = todo_id then none else s.completed k })

/-- One invocation of an ABI method of the contract. -/
inductive Op where
  | createOp (task : String)
  | completeOp (todo_id : Nat)
  | getOp (todo_id : Nat)
  | isCompletedOp (todo_id : Nat)
  | countOp
  | deleteOp (todo_id : Nat)

/-- State transition of one invocation.  A failed `create_todo`
(overflow) aborts the transaction, leaving the state unchanged; the
read-only methods do not change the state. -/
def applyOp (s : TodoState) : Op → TodoState
  | .createOp task =>
    match create_todo s task with
    | some (_, s') => s'
    | none => s
  | .completeOp i => (complete_todo s i).2
  | .getOp _ => s
  | .isCompletedOp _ => s
  | .countOp => s
  | .deleteOp i => (delete_todo s i).2

/-- Run a sequence of invocations from a state. -/
def runFrom (s : TodoState) : List Op → TodoState
  | [] => s
  | op :: rest => runFrom (applyOp s op) rest

/-- The ids returned by the successful `create_todo` calls of a
sequence of invocations, in order. -/
def traceIds (s : TodoState) : List Op → List Nat
  | [] => []
  | .createOp task :: rest =>
    match create_todo s task with
    | some (id, s') => id :: traceIds s' rest
    | none => traceIds s rest
  | op :: rest => traceIds (applyOp s op) rest

/-- The number of records created (successful `create_todo` calls) by a
sequence of invocations. -/
def numCreated (s : TodoState) : List Op → Nat
  | [] => 0
  | .createOp task :: rest =>
    match create_todo s task with
    | some (_, s') => numCreated s' rest + 1
    | none => numCreated s rest
  | op :: rest => numCreated (applyOp s op) rest

/-- A state in which the counter holds the largest `UInt64` value. -/
def capState : TodoState :=
  { todo_counter := U64MOD - 1, todos := fun _ => none, completed := fun _ => none }

/-- A sample state: one record `(1, "Buy milk")`, not completed. -/
def exState : TodoState :=
  { todo_counter := 1,
    todos := fun k => if k = 1 then some "Buy milk" else none,
    completed := fun k => if k = 1 then some false else none }

/-! ### Characterization lemmas for the individual methods -/

theorem todoStateExt {a b : TodoState} (h1 : a.todo_counter = b.todo_counter)
    (h2 : a.todos = b.todos) (h3 : a.completed = b.completed) : a = b := by
  cases a; cases b; simp_all

theorem U64MOD_eq : U64MOD = 18446744073709551616 := by norm_num [U64MOD]

theorem create_todo_eq_some {s : TodoState} {task : String} {id : Nat} {s' : TodoState}
    (h : create_todo s task = some (id, s')) :
    id = s.todo_counter + 1 ∧ s.todo_counter + 1 < U64MOD ∧
      s' = { todo_counter := s.todo_counter + 1,
             todos := fun k => if k = s.todo_counter + 1 then some task else s.todos k,
             completed := fun k => if k = s.todo_counter + 1 then some false else s.completed k } := by
  by_cases hlt : s.todo_counter + 1 < U64MOD
  · simp only [create_todo, if_pos hlt, Option.some.injEq, Prod.mk.injEq] at h
    exact ⟨h.1.symm, hlt, h.2.symm⟩
  · simp [create_todo, hlt] at h

theorem create_todo_of_lt {s : TodoState} (task : String) (hlt : s.todo_counter + 1 < U64MOD) :
    create_todo s task = some (s.todo_counter + 1,
      { todo_counter := s.todo_counter + 1,
        todos := fun k => if k = s.todo_counter + 1 then some task else s.todos k,
        completed := fun k => if k = s.todo_counter + 1 then some false else s.completed k }) := by
  simp [create_todo, hlt]

theorem complete_todo_not_found {s : TodoState} {i : Nat} (h : s.todos i = none) :
    complete_todo s i = ("Todo not found", s) := by
  simp [complete_todo, h]

theorem complete_todo_found {s : TodoState} {i : Nat} (h : s.todos i ≠ none) :
    complete_todo s i = ("Todo marked as completed!",
      { s with completed := fun k => if k = i then some true else s.completed k }) := by
  simp [complete_todo, Option.isNone_iff_eq_none, h]

theorem delete_todo_not_found {s : TodoState} {i : Nat} (h : s.todos i = none) :
    delete_todo s i = ("Todo not found", s) := by
  simp [delete_todo, h]

theorem delete_todo_found {s : TodoState} {i : Nat} (h : s.todos i ≠ none) :
    delete_todo s i = ("Todo deleted successfully!",
      { s with
        todos := fun k => if k = i then none else s.todos k,
        completed := fun k => if k = i then none else s.completed k }) := by
  simp [delete_todo, Option.isNone_iff_eq_none, h]

theorem complete_todo_counter (s : TodoState) (i : Nat) :
    (complete_todo s i).2.todo_counter = s.todo_counter := by
  unfold complete_todo; split <;> rfl

theorem delete_todo_counter (s : TodoState) (i : Nat) :
    (delete_todo s i).2.todo_counter = s.todo_counter := by
  unfold delete_todo; split <;> rfl

theorem applyOp_createOp_some {s : TodoState} {task : String} {id : Nat} {s' : TodoState}
    (h : create_todo s task = some (id, s')) : applyOp s (.createOp task) = s' := by
  simp [applyOp, h]

theorem applyOp_createOp_none {s : TodoState} {task : String}
    (h : create_todo s task = none) : applyOp s (.createOp task) = s := by
  simp [applyOp, h]

/-! ### Trace-level helper lemmas -/

theorem applyOp_counter_mono (s : TodoState) (op : Op) :
    s.todo_counter ≤ (applyOp s op).todo_counter := by
  cases op with
  | createOp task =>
    cases hc : create_todo s task with
    | none => rw [applyOp_createOp_none hc]
    | some p =>
      obtain ⟨id, s'⟩ := p
      obtain ⟨hid, hlt, hs'⟩ := create_todo_eq_some hc
      rw [applyOp_createOp_some hc, hs']
      exact Nat.le_succ _
  | completeOp i => simp [applyOp, complete_todo_counter]
  | getOp i => exact Nat.le_refl _
  | isCompletedOp i => exact Nat.le_refl _
  | countOp => exact Nat.le_refl _
  | deleteOp i => simp [applyOp, delete_todo_counter]

theorem runFrom_counter_mono (ops : List Op) : ∀ s : TodoState,
    s.todo_counter ≤ (runFrom s ops).todo_counter := by
  induction ops with
  | nil => intro s; exact Nat.le_refl _
  | cons op rest ih =>
    intro s
    exact le_trans (applyOp_counter_mono s op) (ih (applyOp s op))

theorem applyOp_counter_noncreate (s : TodoState) (op : Op)
    (h : ∀ task, op ≠ .createOp task) :
    (applyOp s op).todo_counter = s.todo_counter := by
  cases op with
  | createOp task => exact absurd rfl (h task)
  | completeOp i => simp [applyOp, complete_todo_counter]
  | getOp i => rfl
  | isCompletedOp i => rfl
  | countOp => rfl
  | deleteOp i => simp [applyOp, delete_todo_counter]

theorem traceIds_cons_noncreate (s : TodoState) (op : Op) (rest : List Op)
    (h : ∀ task, op ≠ .createOp task) :
    traceIds s (op :: rest) = traceIds (applyOp s op) rest := by
  cases op with
  | createOp task => exact absurd rfl (h task)
  | completeOp i => rfl
  | getOp i => rfl
  | isCompletedOp i => rfl
  | countOp => rfl
  | deleteOp i => rfl

theorem numCreated_cons_noncreate (s : TodoState) (op : Op) (rest : List Op)
    (h : ∀ task, op ≠ .createOp task) :
    numCreated s (op :: rest) = numCreated (applyOp s op) rest := by
  cases op with
  | createOp task => exact absurd rfl (h task)
  | completeOp i => rfl
  | getOp i => rfl
  | isCompletedOp i => rfl
  | countOp => rfl
  | deleteOp i => rfl

/-- The ids returned by the successful creates of a run are exactly the
consecutive integers following the starting counter value, and the final
counter is the starting counter plus the number of successful creates. -/
theorem trace_shape (ops : List Op) : ∀ s : TodoState,
    traceIds s ops = List.range' (s.todo_counter + 1) (numCreated s ops) ∧
    (runFrom s ops).todo_counter = s.todo_counter + numCreated s ops := by
  induction ops with
  | nil => intro s; exact ⟨rfl, rfl⟩
  | cons op rest ih =>
    intro s
    cases op with
    | createOp task =>
      cases hc : create_todo s task with
      | none =>
        have hs : applyOp s (.createOp task) = s := applyOp_createOp_none hc
        refine ⟨?_, ?_⟩
        · simp only [traceIds, numCreated, hc]
          exact (ih s).1
        · show (runFrom (applyOp s (.createOp task)) rest).todo_counter = _
          rw [hs]
          simp only [numCreated, hc]
          exact (ih s).2
      | some p =>
        obtain ⟨id, s'⟩ := p
        obtain ⟨hid, hlt, hs'⟩ := create_todo_eq_some hc
        have hcnt : s'.todo_counter = s.todo_counter + 1 := by rw [hs']
        refine ⟨?_, ?_⟩
        · simp only [traceIds, numCreated, hc]
          rw [(ih s').1, hcnt, hid, List.range'_succ]
        · show (runFrom (applyOp s (.createOp task)) rest).todo_counter = _
          rw [applyOp_createOp_some hc]
          simp only [numCreated, hc]
          rw [(ih s').2, hcnt]
          omega
    | completeOp i =>
      have hne : ∀ task, Op.completeOp i ≠ Op.createOp task := fun _ h => Op.noConfusion h
      refine ⟨?_, ?_⟩
      · rw [traceIds_cons_noncreate s _ rest hne, numCreated_cons_noncreate s _ rest hne,
          (ih _).1, applyOp_counter_noncreate s _ hne]
      · show (runFrom (applyOp s (.completeOp i)) rest).todo_counter = _
        rw [numCreated_cons_noncreate s _ rest hne, (ih _).2,
          applyOp_counter_noncreate s _ hne]
    | getOp i =>
      have hne : ∀ task, Op.getOp i ≠ Op.createOp task := fun _ h => Op.noConfusion h
      refine ⟨?_, ?_⟩
      · rw [traceIds_cons_noncreate s _ rest hne, numCreated_cons_noncreate s _ rest hne,
          (ih _).1, applyOp_counter_noncreate s _ hne]
      · show (runFrom (applyOp s (.getOp i)) rest).todo_counter = _
        rw [numCreated_cons_noncreate s _ rest hne, (ih _).2,
          applyOp_counter_noncreate s _ hne]
    | isCompletedOp i =>
      have hne : ∀ task, Op.isCompletedOp i ≠ Op.createOp task := fun _ h => Op.noConfusion h
      refine ⟨?_, ?_⟩
      · rw [traceIds_cons_noncreate s _ rest hne, numCreated_cons_noncreate s _ rest hne,
          (ih _).1, applyOp_counter_noncreate s _ hne]
      · show (runFrom (applyOp s (.isCompletedOp i)) rest).todo_counter = _
        rw [numCreated_cons_noncreate s _ rest hne, (ih _).2,
          applyOp_counter_noncreate s _ hne]
    | countOp =>
      have hne : ∀ task, Op.countOp ≠ Op.createOp task := fun _ h => Op.noConfusion h
      refine ⟨?_, ?_⟩
      · rw [traceIds_cons_noncreate s _ rest hne, numCreated_cons_noncreate s _ rest hne,
          (ih _).1, applyOp_counter_noncreate s _ hne]
      · show (runFrom (applyOp s .countOp) rest).todo_counter = _
        rw [numCreated_cons_noncreate s _ rest hne, (ih _).2,
          applyOp_counter_noncreate s _ hne]
    | deleteOp i =>
      have hne : ∀ task, Op.deleteOp i ≠ Op.createOp task := fun _ h => Op.noConfusion h
      refine ⟨?_, ?_⟩
      · rw [traceIds_cons_noncreate s _ rest hne, numCreated_cons_noncreate s _ rest hne,
          (ih _).1, applyOp_counter_noncreate s _ hne]
      · show (runFrom (applyOp s (.deleteOp i)) rest).todo_counter = _
        rw [numCreated_cons_noncreate s _ rest hne, (ih _).2,
          applyOp_counter_noncreate s _ hne]

/-- An id that is at most the counter and absent from both maps stays
absent from both maps under every later sequence of invocations. -/
theorem absent_stays_absent (ops : List Op) : ∀ (s : TodoState) (i : Nat),
    i ≤ s.todo_counter → s.todos i = none → s.completed i = none →
    (runFrom s ops).todos i = none ∧ (runFrom s ops).completed i = none := by
  induction ops with
  | nil => intro s i _ h1 h2; exact ⟨h1, h2⟩
  | cons op rest ih =>
    intro s i hle h1 h2
    have step : (applyOp s op).todos i = none ∧ (applyOp s op).completed i = none := by
      cases op with
      | createOp task =>
        cases hc : create_todo s task with
        | none => rw [applyOp_createOp_none hc]; exact ⟨h1, h2⟩
        | some p =>
          obtain ⟨id, s'⟩ := p
          obtain ⟨hid, hlt, hs'⟩ := create_todo_eq_some hc
          rw [applyOp_createOp_some hc, hs']
          have hne : i ≠ s.todo_counter + 1 := by omega
          simp [hne, h1, h2]
      | completeOp j =>
        show (complete_todo s j).2.todos i = none ∧ (complete_todo s j).2.completed i = none
        by_cases hj : s.todos j = none
        · rw [complete_todo_not_found hj]; exact ⟨h1, h2⟩
        · rw [complete_todo_found hj]
          have hij : i ≠ j := fun h => hj (h ▸ h1)
          simp [hij, h1, h2]
      | getOp j => exact ⟨h1, h2⟩
      | isCompletedOp j => exact ⟨h1, h2⟩
      | countOp => exact ⟨h1, h2⟩
      | deleteOp j =>
        show (delete_todo s j).2.todos i = none ∧ (delete_todo s j).2.completed i = none
        by_cases hj : s.todos j = none
        · rw [delete_todo_not_found hj]; exact ⟨h1, h2⟩
        · rw [delete_todo_found hj]
          by_cases hij : i = j <;> simp [hij, h1, h2]
    exact ih (applyOp s op) i (le_trans hle (applyOp_counter_mono s op)) step.1 step.2

/-- Keys present in either map are positive and at most the counter,
preserved along every run. -/
theorem keys_bounded (ops : List Op) : ∀ s : TodoState,
    (∀ k, k = 0 ∨ s.todo_counter < k → s.todos k = none ∧ s.completed k = none) →
    ∀ k, k = 0 ∨ (runFrom s ops).todo_counter < k →
      (runFrom s ops).todos k = none ∧ (runFrom s ops).completed k = none := by
  induction ops with
  | nil => intro s h; exact h
  | cons op rest ih =>
    intro s h
    apply ih
    intro k hk
    cases op with
    | createOp task =>
      cases hc : create_todo s task with
      | none => rw [applyOp_createOp_none hc] at hk ⊢; exact h k hk
      | some p =>
        obtain ⟨id, s'⟩ := p
        obtain ⟨hid, hlt, hs'⟩ := create_todo_eq_some hc
        rw [applyOp_createOp_some hc, hs'] at hk ⊢
        simp only at hk
        have hk' : k = 0 ∨ s.todo_counter < k := by omega
        have hne : k ≠ s.todo_counter + 1 := by omega
        have hh := h k hk'
        simp [hne, hh.1, hh.2]
    | completeOp j =>
      have hcnt : (applyOp s (Op.completeOp j)).todo_counter = s.todo_counter :=
        applyOp_counter_noncreate s _ (fun _ hx => Op.noConfusion hx)
      rw [hcnt] at hk
      have hh := h k hk
      show (complete_todo s j).2.todos k = none ∧ (complete_todo s j).2.completed k = none
      by_cases hj : s.todos j = none
      · rw [complete_todo_not_found hj]; exact hh
      · rw [complete_todo_found hj]
        have hkj : k ≠ j := fun he => hj (he ▸ hh.1)
        simp [hkj, hh.1, hh.2]
    | getOp j => exact h k hk
    | isCompletedOp j => exact h k hk
    | countOp => exact h k hk
    | deleteOp j =>
      have hcnt : (applyOp s (Op.deleteOp j)).todo_counter = s.todo_counter :=
        applyOp_counter_noncreate s _ (fun _ hx => Op.noConfusion hx)
      rw [hcnt] at hk
      have hh := h k hk
      show (delete_todo s j).2.todos k = none ∧ (delete_todo s j).2.completed k = none
      by_cases hj : s.todos j = none
      · rw [delete_todo_not_found hj]; exact hh
      · rw [delete_todo_found hj]
        by_cases hkj : k = j <;> simp [hkj, hh.1, hh.2]

/-- One invocation preserves equality of the two maps' key sets. -/
theorem keyset_eq_step (s : TodoState) (op : Op)
    (h : ∀ k, (s.todos k).isSome ↔ (s.completed k).isSome) :
    ∀ k, ((applyOp s op).todos k).isSome ↔ ((applyOp s op).completed k).isSome := by
  intro k
  cases op with
  | createOp task =>
    cases hc : create_todo s task with
    | none => rw [applyOp_createOp_none hc]; exact h k
    | some p =>
      obtain ⟨id, s'⟩ := p
      obtain ⟨hid, hlt, hs'⟩ := create_todo_eq_some hc
      rw [applyOp_createOp_some hc, hs']
      by_cases hk : k = s.todo_counter + 1 <;> simp [hk, h k]
  | completeOp j =>
    show ((complete_todo s j).2.todos k).isSome ↔ ((complete_todo s j).2.completed k).isSome
    cases hj : s.todos j with
    | none => rw [complete_todo_not_found hj]; exact h k
    | some t =>
      rw [complete_todo_found (by simp [hj])]
      by_cases hkj : k = j
      · subst hkj; simp [hj]
      · simp [hkj, h k]
  | getOp j => exact h k
  | isCompletedOp j => exact h k
  | countOp => exact h k
  | deleteOp j =>
    show ((delete_todo s j).2.todos k).isSome ↔ ((delete_todo s j).2.completed k).isSome
    by_cases hj : s.todos j = none
    · rw [delete_todo_not_found hj]; exact h k
    · rw [delete_todo_found hj]
      by_cases hkj : k = j <;> simp [hkj, h k]

/-- Equality of the two maps' key sets is preserved along every run. -/
theorem keyset_eq_run (ops : List Op) : ∀ s : TodoState,
    (∀ k, (s.todos k).isSome ↔ (s.completed k).isSome) →
    ∀ k, ((runFrom s ops).todos k).isSome ↔ ((runFrom s ops).completed k).isSome := by
  induction ops with
  | nil => intro s h; exact h
  | cons op rest ih => intro s h; exact ih (applyOp s op) (keyset_eq_step s op h)

/-- When the counter has room for the whole batch, every create of the
batch succeeds. -/
theorem creates_all_succeed (ts : List String) : ∀ s : TodoState,
    s.todo_counter + ts.length < U64MOD →
    numCreated s (ts.map Op.createOp) = ts.length := by
  induction ts with
  | nil => intro s _; rfl
  | cons t rest ih =>
    intro s hlt
    simp only [List.length_cons] at hlt
    have h1 : s.todo_counter + 1 < U64MOD := by omega
    have hc := create_todo_of_lt t h1
    simp only [List.map_cons, numCreated, hc]
    rw [ih _ (by simp; omega)]
    simp

/-! ### Claim theorems -/

/-- Claim C1 (amended): for every state whose counter is below the
largest `UInt64` value, `create_todo` succeeds for every text (including
the empty string): it returns `id = counter + 1`, sets the counter to
that id, inserts `(id, text)` into `todos` and `(id, false)` into
`completed`, and changes no other key of either map.  (At counter
`2^64 - 1` the `UInt64` increment overflows and the call aborts.) -/
theorem C1_create_spec (s : TodoState) (task : String)
    (h : s.todo_counter < U64MOD - 1) :
    ∃ s', create_todo s task = some (s.todo_counter + 1, s') ∧
      s'.todo_counter = s.todo_counter + 1 ∧
      s'.todos (s.todo_counter + 1) = some task ∧
      s'.completed (s.todo_counter + 1) = some false ∧
      ∀ k, k ≠ s.todo_counter + 1 → s'.todos k = s.todos k ∧ s'.completed k = s.completed k := by
  have hlt : s.todo_counter + 1 < U64MOD := by have := U64MOD_eq; omega
  refine ⟨_, create_todo_of_lt task hlt, rfl, by simp, by simp, ?_⟩
  intro k hk
  simp [hk]

/-- Counterexample to claim C1 as stated: in the state whose counter is
`2^64 - 1` (the largest `UInt64` value), `create_todo` does not succeed —
the increment overflows and the call aborts. -/
theorem C1_create_cex : create_todo capState "" = none := by
  have h : ¬ (capState.todo_counter + 1 < U64MOD) := by
    simp only [capState]
    have := U64MOD_eq
    omega
  simp [create_todo, h]

/-- Witness for `C1_create_spec` at the initial state. -/
theorem C1_create_spec_wit : (create_todo TodoState.init "a").isSome = true := by
  obtain ⟨s', hs, -⟩ :=
    C1_create_spec TodoState.init "a" (by rw [show TodoState.init.todo_counter = 0 from rfl, U64MOD_eq]; norm_num)
  rw [hs]
  rfl

/-- Claim C9: the not-found return of `get_todo` is indistinguishable
from a stored text: creating a record whose text is the string
"Todo not found" and reading it back returns exactly the same string
that `get_todo` returns for an absent id. -/
theorem C9_not_found_indistinguishable :
    (create_todo TodoState.init "Todo not found").map (fun p => get_todo p.2 p.1) =
      some "Todo not found" ∧
    get_todo TodoState.init 1 = "Todo not found" := by
  constructor <;> rfl

/-- Claim C10: `create_todo` computes the new id as `counter + 1` in
`UInt64` arithmetic, so it succeeds (returning `counter + 1` and
strictly increasing the counter) exactly on states with
`counter < 2^64 - 1`, and at `counter = 2^64 - 1` the increment leaves
the 64-bit range and the call aborts. -/
theorem C10_uint64_bound :
    (∀ (s : TodoState) (task : String), s.todo_counter < U64MOD - 1 →
      ∃ s', create_todo s task = some (s.todo_counter + 1, s') ∧
        s'.todo_counter = s.todo_counter + 1) ∧
    (∀ (s : TodoState) (task : String), s.todo_counter = U64MOD - 1 →
      create_todo s task = none) := by
  constructor
  · intro s task h
    have hlt : s.todo_counter + 1 < U64MOD := by have := U64MOD_eq; omega
    exact ⟨_, create_todo_of_lt task hlt, rfl⟩
  · intro s task h
    have hn : ¬ (s.todo_counter + 1 < U64MOD) := by have := U64MOD_eq; omega
    simp [create_todo, hn]

/-- Witness for `C10_uint64_bound`: the abort branch at the maximal
counter and the success branch at the initial state. -/
theorem C10_uint64_bound_wit :
    create_todo capState "x" = none ∧ (create_todo TodoState.init "b").isSome = true := by
  constructor
  · exact C10_uint64_bound.2 capState "x" rfl
  · obtain ⟨s', hs, -⟩ :=
      C10_uint64_bound.1 TodoState.init "b" (by rw [show TodoState.init.todo_counter = 0 from rfl, U64MOD_eq]; norm_num)
    rw [hs]
    rfl

/-- Claim C2: from the initial state, the ids returned by the successful
creates of any sequence of invocations are the strictly increasing
consecutive integers starting at 1; and after a batch of N creates (all
of which succeed, which holds exactly when N fits below `2^64`),
`get_total_todos` returns N. -/
theorem C2_create_ids_consecutive :
    (∀ ops : List Op, traceIds TodoState.init ops =
      List.range' 1 (traceIds TodoState.init ops).length) ∧
    (∀ ts : List String, ts.length < U64MOD →
      get_total_todos (runFrom TodoState.init (List.map Op.createOp ts)) = ts.length) := by
  constructor
  · intro ops
    have h := (trace_shape ops TodoState.init).1
    rw [h]
    simp [TodoState.init]
  · intro ts hlen
    have hnum : numCreated TodoState.init (List.map Op.createOp ts) = ts.length :=
      creates_all_succeed ts TodoState.init
        (by rw [show TodoState.init.todo_counter = 0 from rfl]; omega)
    have h := (trace_shape (List.map Op.createOp ts) TodoState.init).2
    show (runFrom TodoState.init (List.map Op.createOp ts)).todo_counter = ts.length
    rw [h, hnum, show TodoState.init.todo_counter = 0 from rfl]
    omega

/-- Witness for `C2_create_ids_consecutive`: two creates give count 2. -/
theorem C2_create_ids_consecutive_wit :
    get_total_todos (runFrom TodoState.init (List.map Op.createOp ["a", "b"])) = 2 :=
  C2_create_ids_consecutive.2 ["a", "b"] (by rw [U64MOD_eq]; norm_num)

/-- Claim C3: `complete_todo` on an id absent from `todos` returns the
not-found message and changes nothing; on a present id it returns the
success message, sets the `completed` entry to true, leaves `todos` and
the counter unchanged, and is idempotent (a second call returns the very
same message and state). -/
theorem C3_complete_spec (s : TodoState) (i : Nat) :
    (s.todos i = none → complete_todo s i = ("Todo not found", s)) ∧
    (s.todos i ≠ none →
      (complete_todo s i).1 = "Todo marked as completed!" ∧
      (complete_todo s i).2.completed i = some true ∧
      (complete_todo s i).2.todos = s.todos ∧
      (complete_todo s i).2.todo_counter = s.todo_counter ∧
      complete_todo (complete_todo s i).2 i = complete_todo s i) := by
  refine ⟨fun h => complete_todo_not_found h, fun h => ?_⟩
  rw [complete_todo_found h]
  refine ⟨rfl, by simp, rfl, rfl, ?_⟩
  rw [complete_todo_found
    (show ({ s with completed := fun k => if k = i then some true else s.completed k } :
      TodoState).todos i ≠ none from h)]
  simp only [Prod.mk.injEq, true_and]
  have hfun : (fun k => if k = i then some true else
      if k = i then some true else s.completed k) =
      (fun k => if k = i then some true else s.completed k) := by
    funext k
    by_cases hk : k = i <;> simp [hk]
  rw [hfun]

/-- Witness for `C3_complete_spec` on the sample one-record state. -/
theorem C3_complete_spec_wit :
    (complete_todo exState 1).1 = "Todo marked as completed!" :=
  ((C3_complete_spec exState 1).2 (by simp [exState])).1

/-- Claim C4: `get_todo` returns the not-found message on an absent id
and the stored text verbatim on a present id, with no state change; in
particular a freshly created record reads back exactly the text passed
to `create_todo`. -/
theorem C4_get_spec (s : TodoState) (i : Nat) :
    (s.todos i = none → get_todo s i = "Todo not found") ∧
    (∀ t, s.todos i = some t → get_todo s i = t) ∧
    applyOp s (.getOp i) = s ∧
    (∀ (task : String) (id : Nat) (s' : TodoState),
      create_todo s task = some (id, s') → get_todo s' id = task) := by
  refine ⟨fun h => by simp [get_todo, h], fun t h => by simp [get_todo, h], rfl, ?_⟩
  intro task id s' h
  obtain ⟨hid, hlt, hs'⟩ := create_todo_eq_some h
  subst hid
  rw [hs']
  simp [get_todo]

/-- Witness for `C4_get_spec` on the sample one-record state. -/
theorem C4_get_spec_wit : get_todo exState 1 = "Buy milk" :=
  (C4_get_spec exState 1).2.1 "Buy milk" (by simp [exState])

/-- Claim C5: `is_completed` returns false on an id absent from
`completed` and the stored flag otherwise; hence it is false right after
the create that returned the id, true after a subsequent complete of an
existing id, false for an id never created (from the initial state), and
false ever after the id is deleted. -/
theorem C5_is_completed_spec :
    (∀ (s : TodoState) (i : Nat), s.completed i = none → is_completed s i = false) ∧
    (∀ (s : TodoState) (i : Nat) (b : Bool), s.completed i = some b → is_completed s i = b) ∧
    (∀ (s : TodoState) (task : String) (id : Nat) (s' : TodoState),
      create_todo s task = some (id, s') → is_completed s' id = false) ∧
    (∀ (s : TodoState) (i : Nat), s.todos i ≠ none →
      is_completed (complete_todo s i).2 i = true) ∧
    (∀ (ops : List Op) (i : Nat), i ∉ traceIds TodoState.init ops →
      is_completed (runFrom TodoState.init ops) i = false) ∧
    (∀ (s : TodoState) (i : Nat) (ops : List Op), s.todos i ≠ none → i ≤ s.todo_counter →
      is_completed (runFrom (delete_todo s i).2 ops) i = false) := by
  refine ⟨fun s i h => by simp [is_completed, h],
          fun s i b h => by simp [is_completed, h], ?_, ?_, ?_, ?_⟩
  · intro s task id s' h
    obtain ⟨hid, hlt, hs'⟩ := create_todo_eq_some h
    subst hid
    rw [hs']
    simp [is_completed]
  · intro s i h
    rw [complete_todo_found h]
    simp [is_completed]
  · intro ops i hmem
    have hts := (trace_shape ops TodoState.init).1
    have hcnt := (trace_shape ops TodoState.init).2
    have h0 : TodoState.init.todo_counter = 0 := rfl
    rw [hts, List.mem_range'_1] at hmem
    have hrange : i = 0 ∨ (runFrom TodoState.init ops).todo_counter < i := by
      rw [hcnt]
      omega
    have hb := keys_bounded ops TodoState.init (fun k _ => ⟨rfl, rfl⟩) i hrange
    simp [is_completed, hb.2]
  · intro s i ops h hle
    rw [delete_todo_found h]
    have habs := absent_stays_absent ops
      { s with todos := fun k => if k = i then none else s.todos k,
               completed := fun k => if k = i then none else s.completed k } i
      hle (by simp) (by simp)
    simp [is_completed, habs.2]

/-- Witness for `C5_is_completed_spec`: completing the sample record
makes `is_completed` true. -/
theorem C5_is_completed_spec_wit :
    is_completed (complete_todo exState 1).2 1 = true :=
  C5_is_completed_spec.2.2.2.1 exState 1 (by simp [exState])

/-- Claim C6: `delete_todo` never changes the counter; on an absent id
it returns the not-found message and changes nothing; on a present id it
returns the success message, removes the id from both maps, and a
subsequent `get_todo` of that id returns the not-found message. -/
theorem C6_delete_spec (s : TodoState) (i : Nat) :
    get_total_todos (delete_todo s i).2 = get_total_todos s ∧
    (s.todos i = none → delete_todo s i = ("Todo not found", s)) ∧
    (s.todos i ≠ none →
      (delete_todo s i).1 = "Todo deleted successfully!" ∧
      (delete_todo s i).2.todos i = none ∧
      (delete_todo s i).2.completed i = none ∧
      get_todo (delete_todo s i).2 i = "Todo not found") := by
  refine ⟨delete_todo_counter s i, fun h => delete_todo_not_found h, fun h => ?_⟩
  rw [delete_todo_found h]
  exact ⟨rfl, by simp, by simp, by simp [get_todo]⟩

/-- Witness for `C6_delete_spec` on the sample one-record state. -/
theorem C6_delete_spec_wit :
    (delete_todo exState 1).1 = "Todo deleted successfully!" :=
  (((C6_delete_spec exState 1).2.2) (by simp [exState])).1

/-- Claim C7: in every state reachable from the initial state, the key
sets of the two maps are equal: an id is present in `todos` iff it is
present in `completed`. -/
theorem C7_keyset_invariant (ops : List Op) (k : Nat) :
    ((runFrom TodoState.init ops).todos k).isSome ↔
      ((runFrom TodoState.init ops).completed k).isSome :=
  keyset_eq_run ops TodoState.init (fun _ => Iff.rfl) k

/-- Claim C8: the counter never decreases under any invocation; in every
state reachable from the initial state the counter equals the number of
records ever created; and a successful create returns an id strictly
greater than every id ever returned before, so ids are never reused. -/
theorem C8_counter_monotone_no_reuse :
    (∀ (s : TodoState) (op : Op), s.todo_counter ≤ (applyOp s op).todo_counter) ∧
    (∀ ops : List Op, (runFrom TodoState.init ops).todo_counter =
      numCreated TodoState.init ops) ∧
    (∀ (ops : List Op) (task : String) (id : Nat),
      (create_todo (runFrom TodoState.init ops) task).map Prod.fst = some id →
      ∀ j ∈ traceIds TodoState.init ops, j < id) := by
  refine ⟨applyOp_counter_mono, ?_, ?_⟩
  · intro ops
    have h := (trace_shape ops TodoState.init).2
    rw [h, show TodoState.init.todo_counter = 0 from rfl]
    omega
  · intro ops task id hmap j hj
    have h0 : TodoState.init.todo_counter = 0 := rfl
    have hcnt := (trace_shape ops TodoState.init).2
    rw [(trace_shape ops TodoState.init).1, List.mem_range'_1] at hj
    obtain ⟨p, hp, hfst⟩ := Option.map_eq_some'.mp hmap
    obtain ⟨id2, s'⟩ := p
    obtain ⟨hid, hlt, -⟩ := create_todo_eq_some hp
    simp only at hfst
    omega

/-- Witness for `C8_counter_monotone_no_reuse`: after one create (id 1),
a further create returns id 2, strictly above the earlier id 1. -/
theorem C8_counter_monotone_no_reuse_wit : (1 : Nat) < 2 :=
  C8_counter_monotone_no_reuse.2.2 [Op.createOp "a"] "b" 2 rfl 1 (by decide)
